import Mathlib

/-!
Verification of the polling/scheduling core of the trmnl-pws repository:
the state store and backoff policy (`src/app/state.py`), the delivery
client (`src/app/webhook.py`), the relative-time formatter
(`src/app/utils/formatting.py`), and the scheduler's per-iteration loop
(`src/app/main.py`).  Python dictionaries are embedded as association
lists, timestamps as integers produced by an explicit parse function
(standing for `datetime.fromisoformat`), and machine behaviour such as
Python's cross-type `==` is embedded explicitly.
-/

/-! ## JSON serialization (model of `json.dumps(payload, default=str)`) -/

/-- Values appearing in a field map: strings, integers and nested objects
(the plugins produce exactly these shapes; `default=str` has already turned
datetimes into strings). -/
inductive Json where
  | str (s : String)
  | int (n : Int)
  | obj (members : List (String × Json))

/-- Lowercase hexadecimal digit, as used by Python's `\uXXXX` escapes. -/
def hexDigit (n : Nat) : Char :=
  if n < 10 then Char.ofNat (48 + n) else Char.ofNat (87 + n)

/-- Four lowercase hex digits. -/
def hex4 (n : Nat) : String :=
  String.mk [hexDigit (n / 4096 % 16), hexDigit (n / 256 % 16),
             hexDigit (n / 16 % 16), hexDigit (n % 16)]

/-- Python `json` escape of one character under the default
`ensure_ascii=True`: short escapes for the usual control characters, and
`\uXXXX` (with surrogate pairs beyond the BMP) for everything outside the
printable ASCII range. -/
def escapeChar (c : Char) : String :=
  if c = '"' then "\\\""
  else if c = '\\' then "\\\\"
  else if c = '\n' then "\\n"
  else if c = '\t' then "\\t"
  else if c = '\r' then "\\r"
  else if c = '\x08' then "\\b"
  else if c = '\x0c' then "\\f"
  else if c.toNat < 32 ∨ c.toNat > 126 then
    if c.toNat < 65536 then "\\u" ++ hex4 c.toNat
    else
      "\\u" ++ hex4 (55296 + (c.toNat - 65536) / 1024) ++
      "\\u" ++ hex4 (56320 + (c.toNat - 65536) % 1024)
  else String.singleton c

/-- A JSON string literal: quotes around the escaped characters. -/
def encodeString (s : String) : String :=
  "\"" ++ s.data.foldl (fun acc c => acc ++ escapeChar c) "" ++ "\""

mutual

/-- `json.dumps` with the default separators `", "` and `": "`
(no indent), as called in `src/app/webhook.py` line 36. -/
def dumps : Json → String
  | .str s => encodeString s
  | .int n => toString n
  | .obj ms => "\x7b" ++ dumpsMembers ms ++ "\x7d"

/-- Comma-joined `"key": value` members of an object. -/
def dumpsMembers : List (String × Json) → String
  | [] => ""
  | [(k, v)] => encodeString k ++ ": " ++ dumps v
  | (k, v) :: m :: rest => encodeString k ++ ": " ++ dumps v ++ ", " ++ dumpsMembers (m :: rest)

end

/-- Byte length of the UTF-8 encoding of a string, the model of
`len(json_payload.encode("utf-8"))` in `src/app/webhook.py` line 37.
(Under `ensure_ascii=True` the serialized payload is pure ASCII, so this
equals its character count, but the definition follows the code.) -/
def utf8Len (s : String) : Nat :=
  s.data.foldl (fun n c => n + c.utf8Size) 0

/-! ## Delivery client (`src/app/webhook.py`) -/

/-- What the HTTP layer (`requests.post`) yields: a response carrying a
status code, or a raised `requests.exceptions.RequestException`. -/
inductive HttpResult where
  | response (status : Nat)
  | transportError
deriving DecidableEq

/-- Result of `post_to_webhook` together with the instrumentation needed
by the spec's scenarios: `ok` is the boolean the Python function returns,
`networkCalled` records whether the HTTP transport was invoked at all. -/
structure PostResult where
  ok : Bool
  networkCalled : Bool
deriving DecidableEq

def TRMNL_BASE_URL : String := "https://usetrmnl.com/api/custom_plugins"

/-- Model of `post_to_webhook` (`src/app/webhook.py` lines 13-74).  The
payload `{"merge_variables": merge_variables}` is serialized and its byte
length checked against 5120 (TRMNL+) or 2048 (standard) before any network
call; an oversized payload returns `False` without touching the transport.
Otherwise the transport result is classified: status 429 returns `False`,
`raise_for_status()` raises (and the handler returns `False`) exactly for
statuses in [400, 600), a transport error returns `False`, and every other
completed response returns `True`. -/
def post_to_webhook (webhook_id : String) (merge_variables : Json)
    (trmnl_plus : Bool) (transport : HttpResult) : PostResult :=
  let _url := TRMNL_BASE_URL ++ "/" ++ webhook_id
  let payload := Json.obj [("merge_variables", merge_variables)]
  let json_payload := dumps payload
  let payload_size := utf8Len json_payload
  let max_size := if trmnl_plus then 5120 else 2048
  if payload_size > max_size then
    ⟨false, false⟩
  else
    match transport with
    | .response status =>
      if status = 429 then ⟨false, true⟩
      else if 400 ≤ status ∧ status < 600 then ⟨false, true⟩
      else ⟨true, true⟩
    | .transportError => ⟨false, true⟩

/-! ## State store (`src/app/state.py`) -/

/-- One entry of the persisted state map: either the legacy bare
timestamp string, or the structured dictionary whose `"timestamp"` and
`"failure_count"` keys may each be absent (Python reads them with
`.get`). -/
inductive Entry where
  | str (s : String)
  | dict (timestamp : Option String) (failure_count : Option Nat)
deriving DecidableEq

/-- The state map `webhook_id -> entry`, a Python dict embedded as an
association list with at most one binding per key in use. -/
def StateMap : Type := List (String × Entry)

/-- `state.get(webhook_id)`. -/
def dictGet : StateMap → String → Option Entry
  | [], _ => none
  | (k, v) :: rest, key => if k = key then some v else dictGet rest key

/-- `state[webhook_id] = entry` (replace an existing binding, else append). -/
def dictInsert : StateMap → String → Entry → StateMap
  | [], key, v => [(key, v)]
  | (k, w) :: rest, key, v =>
    if k = key then (k, v) :: rest else (k, w) :: dictInsert rest key v

/-- Python truthiness of an entry, as tested by `if webhook_state:` in
`get_last_update_time`: a non-empty string, or a non-empty dictionary. -/
def entryTruthy : Entry → Bool
  | .str s => s ≠ ""
  | .dict t f => t.isSome || f.isSome

/-- Maximum backoff time (1 hour), `src/app/state.py` line 16. -/
def MAX_BACKOFF_SECONDS : Nat := 3600

/-- Model of `calculate_backoff` (`src/app/state.py` lines 178-196): the
base interval unchanged at zero failures, otherwise the doubled interval
capped at `MAX_BACKOFF_SECONDS`. -/
def calculate_backoff (failure_count : Nat) (base_interval : Nat) : Nat :=
  if failure_count = 0 then base_interval
  else min (base_interval * 2 ^ failure_count) MAX_BACKOFF_SECONDS

/-- Model of `get_last_update_time` (`src/app/state.py` lines 81-114).
`parse` stands for `datetime.fromisoformat`, returning `none` where Python
raises `ValueError`; timestamps are abstracted to integers.  A missing
entry, a falsy entry, a missing or empty timestamp string, and a string
that fails to parse all yield `none`. -/
def get_last_update_time (parse : String → Option Int) (state : StateMap)
    (webhook_id : String) : Option Int :=
  match dictGet state webhook_id with
  | some webhook_state =>
    if entryTruthy webhook_state then
      let timestamp_str : Option String :=
        match webhook_state with
        | .str s => some s
        | .dict t _ => t
      match timestamp_str with
      | some s => if s ≠ "" then parse s else none
      | none => none
    else none
  | none => none

/-- Model of `get_failure_count` (`src/app/state.py` lines 199-216): 0 for
a missing entry or a legacy string entry, else the `"failure_count"` field
defaulting to 0. -/
def get_failure_count (state : StateMap) (webhook_id : String) : Nat :=
  match dictGet state webhook_id with
  | some (.str _) => 0
  | some (.dict _ f) => f.getD 0
  | none => 0

/-- Model of `record_update` (`src/app/state.py` lines 117-155): read the
prior failure count tolerating the legacy and absent forms, reset it to 0
on success or increment it on failure, and overwrite the entry with the
fresh timestamp (`nowStr` stands for `datetime.utcnow().isoformat()`). -/
def record_update (state : StateMap) (webhook_id : String) (success : Bool)
    (nowStr : String) : StateMap :=
  let prior : Nat :=
    match dictGet state webhook_id with
    | some (.str _) => 0
    | some (.dict _ f) => f.getD 0
    | none => 0
  let failure_count := if success then 0 else prior + 1
  dictInsert state webhook_id (.dict (some nowStr) (some failure_count))

/-- Model of `seconds_since_last_update` (`src/app/state.py` lines
158-175), with the current time passed explicitly. -/
def seconds_since_last_update (parse : String → Option Int) (state : StateMap)
    (webhook_id : String) (now : Int) : Option Int :=
  match get_last_update_time parse state webhook_id with
  | none => none
  | some t => some (now - t)

/-- Model of `should_update` (`src/app/state.py` lines 219-242): true when
the webhook was never updated, else true exactly when the elapsed time
reaches the backoff-adjusted required interval. -/
def should_update (parse : String → Option Int) (state : StateMap)
    (webhook_id : String) (poll_interval : Nat) (now : Int) : Bool :=
  match seconds_since_last_update parse state webhook_id now with
  | none => true
  | some elapsed =>
    let failure_count := get_failure_count state webhook_id
    let required_interval := calculate_backoff failure_count poll_interval
    decide ((required_interval : Int) ≤ elapsed)

/-- File contents observable at each moment of `save_state`
(`src/app/state.py` lines 47-51): before the call, after
`open(STATE_FILE, "w")` truncates the file, and after `json.dump` has
written the new document.  The function overwrites the state file in
place; there is no write-to-temporary-then-rename step. -/
def save_state_trace (oldContent newContent : String) : List String :=
  [oldContent, "", newContent]

/-! ## Relative-time formatter (`src/app/utils/formatting.py`) -/

/-- Python `int()` applied to an exact rational: truncation toward zero. -/
def pyInt (q : ℚ) : Int := q.num.tdiv (q.den : Int)

/-- Model of `format_relative_time` (`src/app/utils/formatting.py` lines
35-70), taking the elapsed duration `now - timestamp` in seconds as an
exact rational (Python computes `diff.total_seconds() / 60` in floating
point).  Buckets: under 1 minute, under 60 minutes, under 1440 minutes
(24 hours), under 10080 minutes (7 days), else weeks. -/
def format_relative_time (diff_seconds : ℚ) : String :=
  let minutes : ℚ := diff_seconds / 60
  if minutes < 1 then "just now"
  else if minutes < 60 then
    toString (pyInt minutes) ++ " minute" ++
      (if pyInt minutes ≠ 1 then "s" else "") ++ " ago"
  else if minutes < 1440 then
    let hours := pyInt (minutes / 60)
    toString hours ++ " hour" ++ (if hours ≠ 1 then "s" else "") ++ " ago"
  else if minutes < 10080 then
    let days := pyInt (minutes / 1440)
    toString days ++ " day" ++ (if days ≠ 1 then "s" else "") ++ " ago"
  else
    let weeks := pyInt (minutes / 10080)
    toString weeks ++ " week" ++ (if weeks ≠ 1 then "s" else "") ++ " ago"

/-! ## Scheduler iteration (`src/app/main.py` lines 161-231) -/

/-- In `src/app/main.py` lines 213 and 217 the boolean returned by
`post_to_webhook` is compared with `==` against the strings `"success"`
and `"rate_limited"`.  In Python a `bool` never compares equal to a
`str`, so both comparisons evaluate to `False` whatever the boolean is;
this definition embeds that cross-type `==`. -/
def boolEqString (_b : Bool) (_s : String) : Bool := false

/-- One plugin as the scheduler loop sees it in a given iteration: its
webhook id, the outcome of `collect_data()` (`none` models a raised
exception), and what the HTTP transport would yield for its post. -/
structure PluginRun where
  webhook_id : String
  collect_data : Option Json
  transport : HttpResult

/-- The scheduler's per-iteration accumulator: the mutable state map, the
`iteration_state_modified` flag, the running `min_wait_seconds`, and — as
instrumentation for the spec's scenarios — the webhook ids for which
`post_to_webhook` was invoked and the `(webhook_id, success)` arguments of
every `record_update` call. -/
structure IterAcc where
  state : StateMap
  iteration_state_modified : Bool
  min_wait_seconds : Int
  attempted : List String
  recorded : List (String × Bool)

/-- The body of the `for plugin in plugins` loop (`src/app/main.py` lines
161-231).  A target that is not yet due folds its remaining wait into
`min_wait_seconds` and is skipped.  A due target runs `collect_data()`;
an exception there is caught by the per-plugin handler and nothing
changes.  On successful collection `post_to_webhook` runs and its boolean
result is compared (via Python's cross-type `==`) against `"success"` and
`"rate_limited"` to choose the `record_update` call. -/
def iter_step (parse : String → Option Int) (poll_interval : Nat)
    (trmnl_plus : Bool) (now : Int) (nowStr : String)
    (acc : IterAcc) (plugin : PluginRun) : IterAcc :=
  let webhook_id := plugin.webhook_id
  if should_update parse acc.state webhook_id poll_interval now = false then
    match seconds_since_last_update parse acc.state webhook_id now with
    | some elapsed =>
      let failure_count := get_failure_count acc.state webhook_id
      let required_interval := calculate_backoff failure_count poll_interval
      let remaining := (required_interval : Int) - elapsed
      { acc with min_wait_seconds := min acc.min_wait_seconds remaining }
    | none => acc
  else
    match plugin.collect_data with
    | none => acc
    | some data =>
      let status := post_to_webhook webhook_id data trmnl_plus plugin.transport
      let acc := { acc with attempted := acc.attempted ++ [webhook_id] }
      if boolEqString status.ok "success" then
        { acc with
          state := record_update acc.state webhook_id true nowStr,
          recorded := acc.recorded ++ [(webhook_id, true)],
          iteration_state_modified := true }
      else if boolEqString status.ok "rate_limited" then
        { acc with
          state := record_update acc.state webhook_id false nowStr,
          recorded := acc.recorded ++ [(webhook_id, false)],
          iteration_state_modified := true }
      else
        { acc with
          state := record_update acc.state webhook_id false nowStr,
          recorded := acc.recorded ++ [(webhook_id, false)],
          iteration_state_modified := true }

/-- One full pass of the scheduler loop over the configured plugins with
the state loaded at the top of the iteration; `min_wait_seconds` starts at
the base poll interval (`src/app/main.py` line 159). -/
def run_iteration (parse : String → Option Int) (plugins : List PluginRun)
    (state0 : StateMap) (poll_interval : Nat) (trmnl_plus : Bool)
    (now : Int) (nowStr : String) : IterAcc :=
  plugins.foldl (iter_step parse poll_interval trmnl_plus now nowStr)
    { state := state0, iteration_state_modified := false,
      min_wait_seconds := (poll_interval : Int), attempted := [], recorded := [] }

/-! ## Concrete instances used in scenarios -/

/-- A concrete timestamp parser for scenario instantiations of the
`parse` collaborator: it understands exactly the string `"0"` (epoch 0)
and rejects everything else, the way `datetime.fromisoformat` rejects a
corrupt string. -/
def parseDemo : String → Option Int := fun s => if s = "0" then some 0 else none

/-- A 2170-character string value, sized so that the serialized payload
around it is exactly 2200 bytes. -/
def xsBig : String := String.mk (List.replicate 2170 'x')

/-- A field map whose serialized payload
`{"merge_variables": {"k": "xx...x"}}` is 2200 bytes, the oversized
payload of the spec's scenario. -/
def mvBig : Json := Json.obj [("k", Json.str xsBig)]

/-! ## Helper lemmas -/

theorem utf8Len_foldl (l : List Char) (n : Nat) :
    l.foldl (fun n c => n + c.utf8Size) n = n + (l.map Char.utf8Size).sum := by
  induction l generalizing n with
  | nil => simp
  | cons c cs ih => simp [List.foldl_cons, ih, Nat.add_assoc]

theorem utf8Len_append (s t : String) : utf8Len (s ++ t) = utf8Len s + utf8Len t := by
  simp [utf8Len, String.data_append, utf8Len_foldl]

theorem utf8Len_encode_foldl (l : List Char) (init : String) :
    utf8Len (l.foldl (fun acc c => acc ++ escapeChar c) init)
      = utf8Len init + (l.map (fun c => utf8Len (escapeChar c))).sum := by
  induction l generalizing init with
  | nil => simp
  | cons c cs ih => simp [List.foldl_cons, ih, utf8Len_append, Nat.add_assoc]

theorem utf8Len_encodeString (s : String) :
    utf8Len (encodeString s)
      = 2 + (s.data.map (fun c => utf8Len (escapeChar c))).sum := by
  have h0 : utf8Len "" = 0 := rfl
  have h1 : utf8Len "\"" = 1 := rfl
  simp [encodeString, utf8Len_append, utf8Len_encode_foldl, h0, h1]
  omega

theorem mvBig_payload_size :
    utf8Len (dumps (Json.obj [("merge_variables", mvBig)])) = 2200 := by
  have hx1 : utf8Len (escapeChar 'x') = 1 := rfl
  have hxs : (xsBig.data.map (fun c => utf8Len (escapeChar c))).sum = 2170 := by
    show ((List.replicate 2170 'x').map (fun c => utf8Len (escapeChar c))).sum = 2170
    rw [List.map_replicate, hx1, List.sum_replicate, smul_eq_mul]
  have hob : utf8Len "\x7b" = 1 := rfl
  have hcb : utf8Len "\x7d" = 1 := rfl
  have hsep : utf8Len ": " = 2 := rfl
  have hk : (("k" : String).data.map (fun c => utf8Len (escapeChar c))).sum = 1 := rfl
  have hmv : (("merge_variables" : String).data.map (fun c => utf8Len (escapeChar c))).sum = 15 := rfl
  simp [mvBig, dumps, dumpsMembers, utf8Len_append, utf8Len_encodeString,
        hxs, hob, hcb, hsep, hk, hmv]
  decide

theorem dictGet_dictInsert_self (state : StateMap) (k : String) (v : Entry) :
    dictGet (dictInsert state k v) k = some v := by
  induction state with
  | nil => simp [dictInsert, dictGet]
  | cons kv rest ih =>
    by_cases h : kv.1 = k
    · simp [dictInsert, dictGet, h]
    · simp [dictInsert, dictGet, h, ih]

theorem post_oversized (webhook_id : String) (mv : Json) (tp : Bool)
    (transport : HttpResult)
    (hsize : utf8Len (dumps (Json.obj [("merge_variables", mv)]))
      > (if tp then 5120 else 2048)) :
    post_to_webhook webhook_id mv tp transport = ⟨false, false⟩ := by
  unfold post_to_webhook
  rw [if_pos hsize]

/-! ## Claims -/

/-- C1: In the scheduler loop (`src/app/main.py` lines 209-226) the
boolean returned by `post_to_webhook` is compared against the strings
`"success"` and `"rate_limited"`; in Python a bool never equals a str, so
even a delivery that the client reports as successful (HTTP 200,
`post_to_webhook` returns `True`) is recorded with `success=False` and
the target's `consecutive_failures` is incremented from 0 to 1 instead of
being reset.  This evaluates the code at that failing input. -/
theorem c1_success_recorded_as_failure :
    (post_to_webhook "w1" (Json.obj []) false (.response 200)).ok = true ∧
    (run_iteration parseDemo [⟨"w1", some (Json.obj []), .response 200⟩]
        [("w1", Entry.dict (some "0") (some 0))] 300 false 2000 "2000").recorded
      = [("w1", false)] ∧
    dictGet (run_iteration parseDemo [⟨"w1", some (Json.obj []), .response 200⟩]
        [("w1", Entry.dict (some "0") (some 0))] 300 false 2000 "2000").state "w1"
      = some (Entry.dict (some "2000") (some 1)) := by
  refine ⟨by decide, by decide, by decide⟩

/-- C2 counterexample: `post_to_webhook` returns the same value for a 429
response as for a 500 response (both `False`), so `RateLimited` is not
distinguishable from `Failed` in the returned value; and a 304 response
(non-2xx, below 400) returns `True`, not a failure. -/
theorem c2_rate_limited_indistinguishable :
    post_to_webhook "w" (Json.obj []) false (.response 429)
      = post_to_webhook "w" (Json.obj []) false (.response 500) ∧
    post_to_webhook "w" (Json.obj []) false (.response 304) = ⟨true, true⟩ := by
  refine ⟨by decide, by decide⟩

/-- C2 (amended): for a payload within the size limit,
`post_to_webhook` returns a plain boolean rather than a tagged outcome:
`False` for a 429 response, `False` for any response status in
[400, 600) (where `raise_for_status()` raises), `False` for a transport
error, and `True` for every other completed response, including all 2xx. -/
theorem c2_post_returns_bool (webhook_id : String) (mv : Json) (tp : Bool)
    (hsize : utf8Len (dumps (Json.obj [("merge_variables", mv)]))
      ≤ (if tp then 5120 else 2048)) :
    post_to_webhook webhook_id mv tp (.response 429) = ⟨false, true⟩ ∧
    (∀ st : Nat, 400 ≤ st → st < 600 →
      post_to_webhook webhook_id mv tp (.response st) = ⟨false, true⟩) ∧
    (∀ st : Nat, 200 ≤ st → st < 300 →
      post_to_webhook webhook_id mv tp (.response st) = ⟨true, true⟩) ∧
    post_to_webhook webhook_id mv tp .transportError = ⟨false, true⟩ := by
  have hns : ¬ (utf8Len (dumps (Json.obj [("merge_variables", mv)]))
      > (if tp then 5120 else 2048)) := Nat.not_lt.mpr hsize
  refine ⟨?_, ?_, ?_, ?_⟩
  · unfold post_to_webhook
    rw [if_neg hns]
    decide
  · intro st h1 h2
    unfold post_to_webhook
    rw [if_neg hns]
    by_cases hst : st = 429
    · simp [hst]
    · simp only [hst, if_false, if_neg hst]
      rw [if_pos ⟨h1, h2⟩]
  · intro st h1 h2
    unfold post_to_webhook
    rw [if_neg hns]
    have hst : ¬ st = 429 := by omega
    have hrange : ¬ (400 ≤ st ∧ st < 600) := by omega
    simp only [if_neg hst, if_neg hrange]
  · unfold post_to_webhook
    rw [if_neg hns]

/-- C2 witness: the boolean classification applied to the empty field
map, whose 23-byte payload is within the standard 2048-byte limit. -/
theorem c2_post_returns_bool_witness :
    post_to_webhook "w" (Json.obj []) false (.response 429) = ⟨false, true⟩ ∧
    post_to_webhook "w" (Json.obj []) false (.response 500) = ⟨false, true⟩ ∧
    post_to_webhook "w" (Json.obj []) false (.response 200) = ⟨true, true⟩ ∧
    post_to_webhook "w" (Json.obj []) false .transportError = ⟨false, true⟩ := by
  have h := c2_post_returns_bool "w" (Json.obj []) false (by decide)
  exact ⟨h.1, h.2.1 500 (by decide) (by decide),
    h.2.2.1 200 (by decide) (by decide), h.2.2.2⟩

/-- C3 counterexample: with base interval 4000 and zero failures,
`calculate_backoff` returns 4000, not `min(4000 * 2 ^ 0, 3600) = 3600`,
and the function strictly decreases from failure count 0 to 1, so the
claimed formula and monotonicity fail for base intervals above 3600. -/
theorem c3_backoff_uncapped_at_zero :
    calculate_backoff 0 4000 = 4000 ∧
    min (4000 * 2 ^ 0) 3600 = 3600 ∧
    calculate_backoff 1 4000 < calculate_backoff 0 4000 := by
  refine ⟨by decide, by decide, by decide⟩

/-- C3 (amended): for every base interval `B ≤ 3600` (the backoff
ceiling) and all failure counts, `calculate_backoff` equals
`min(B * 2 ^ failure_count, 3600)` and is monotonically non-decreasing in
the failure count; the zero-failure case returns `B` itself, which the
ceiling does not cap, so both parts need `B ≤ 3600`. -/
theorem c3_backoff_formula_monotone (fc fc2 B : Nat) (hB : B ≤ 3600)
    (hle : fc ≤ fc2) :
    calculate_backoff fc B = min (B * 2 ^ fc) 3600 ∧
    calculate_backoff fc B ≤ calculate_backoff fc2 B := by
  have formula : ∀ n : Nat, calculate_backoff n B = min (B * 2 ^ n) 3600 := by
    intro n
    unfold calculate_backoff MAX_BACKOFF_SECONDS
    by_cases hn : n = 0
    · simp [hn, Nat.min_eq_left hB]
    · simp [hn]
  refine ⟨formula fc, ?_⟩
  rw [formula fc, formula fc2]
  exact min_le_min
    (Nat.mul_le_mul_left B (Nat.pow_le_pow_right (by norm_num) hle)) le_rfl

/-- C3 witness: the amended statement at base interval 300 and failure
counts 0 and 2. -/
theorem c3_backoff_witness :
    calculate_backoff 0 300 = min (300 * 2 ^ 0) 3600 ∧
    calculate_backoff 0 300 ≤ calculate_backoff 2 300 :=
  c3_backoff_formula_monotone 0 2 300 (by decide) (by decide)

/-- C4 counterexample: an elapsed time of 600 seconds (10 minutes, under
the claimed 16-minute threshold) formats as "10 minutes ago", not
"just now"; and 864000 seconds (10 days, under the claimed 14-day
threshold) formats as "1 week ago", not a days bucket. -/
theorem c4_threshold_counterexample :
    format_relative_time 600 = "10 minutes ago" ∧
    format_relative_time 600 ≠ "just now" ∧
    format_relative_time 864000 = "1 week ago" := by
  have e1 : format_relative_time 600 = "10 minutes ago" := by
    have h : (600 : ℚ) / 60 = 10 := by norm_num
    simp only [format_relative_time, h]
    norm_num [pyInt]
    decide
  have e2 : format_relative_time 864000 = "1 week ago" := by
    have h : (864000 : ℚ) / 60 = 14400 := by norm_num
    simp only [format_relative_time, h]
    norm_num [pyInt]
    decide
  exact ⟨e1, by rw [e1]; decide, e2⟩

/-- C4 (amended): the formatter buckets the elapsed duration as: under 1
minute (not 16) yields "just now", under 60 minutes yields "N minutes
ago", under 24 hours yields "N hours ago", under 7 days (not 14) yields
"N days ago", and otherwise "N weeks ago" (each with singular/plural
handling, N truncated toward zero). -/
theorem c4_bucket_thresholds (s : ℚ) :
    format_relative_time s =
      if s < 60 then "just now"
      else if s < 3600 then
        toString (pyInt (s / 60)) ++ " minute" ++
          (if pyInt (s / 60) ≠ 1 then "s" else "") ++ " ago"
      else if s < 86400 then
        toString (pyInt (s / 3600)) ++ " hour" ++
          (if pyInt (s / 3600) ≠ 1 then "s" else "") ++ " ago"
      else if s < 604800 then
        toString (pyInt (s / 86400)) ++ " day" ++
          (if pyInt (s / 86400) ≠ 1 then "s" else "") ++ " ago"
      else
        toString (pyInt (s / 604800)) ++ " week" ++
          (if pyInt (s / 604800) ≠ 1 then "s" else "") ++ " ago" := by
  have h1 : s / 60 < 1 ↔ s < 60 := by
    rw [div_lt_one (by norm_num : (0 : ℚ) < 60)]
  have h2 : s / 60 < 60 ↔ s < 3600 := by
    rw [div_lt_iff₀ (by norm_num : (0 : ℚ) < 60)]; norm_num
  have h3 : s / 60 < 1440 ↔ s < 86400 := by
    rw [div_lt_iff₀ (by norm_num : (0 : ℚ) < 60)]; norm_num
  have h4 : s / 60 < 10080 ↔ s < 604800 := by
    rw [div_lt_iff₀ (by norm_num : (0 : ℚ) < 60)]; norm_num
  have d2 : s / 60 / 60 = s / 3600 := by rw [div_div]; norm_num
  have d3 : s / 60 / 1440 = s / 86400 := by rw [div_div]; norm_num
  have d4 : s / 60 / 10080 = s / 604800 := by rw [div_div]; norm_num
  simp only [format_relative_time, h1, h2, h3, h4, d2, d3, d4]

/-- C5 counterexample: for the 2200-byte payload `mvBig` against the
2048-byte standard limit, `post_to_webhook` returns the plain boolean
`False` — the same Python value an ordinary failed delivery returns —
rather than a distinct `PayloadTooLarge` outcome. -/
theorem c5_no_distinct_payload_outcome :
    (post_to_webhook "w" mvBig false (.response 200)).ok = false ∧
    (post_to_webhook "w" mvBig false (.response 200)).ok
      = (post_to_webhook "w" (Json.obj []) false (.response 500)).ok := by
  have h := post_oversized "w" mvBig false (.response 200)
    (by rw [mvBig_payload_size]; decide)
  rw [h]
  exact ⟨rfl, by decide⟩

/-- C5 (amended): for every field map whose serialized JSON payload
exceeds the tier limit (2048 bytes standard, 5120 bytes TRMNL+),
`post_to_webhook` returns `False` without invoking the HTTP transport,
whatever the transport would have answered. -/
theorem c5_oversized_no_network (webhook_id : String) (mv : Json) (tp : Bool)
    (transport : HttpResult)
    (hsize : utf8Len (dumps (Json.obj [("merge_variables", mv)]))
      > (if tp then 5120 else 2048)) :
    post_to_webhook webhook_id mv tp transport = ⟨false, false⟩ :=
  post_oversized webhook_id mv tp transport hsize

/-- C5 witness: the 2200-byte payload against the standard 2048-byte
limit returns `False` with the network never called. -/
theorem c5_oversized_no_network_witness :
    utf8Len (dumps (Json.obj [("merge_variables", mvBig)])) = 2200 ∧
    post_to_webhook "w" mvBig false (.response 200) = ⟨false, false⟩ :=
  ⟨mvBig_payload_size,
    c5_oversized_no_network "w" mvBig false (.response 200)
      (by rw [mvBig_payload_size]; decide)⟩

/-- C6: `should_update` returns true exactly when no last-update
timestamp can be read, or when the elapsed time since it is at least
`calculate_backoff(failure count, poll interval)`; and in the spec's
scenario (base interval 300, 2 consecutive failures, last attempt 1000
seconds ago) the required interval is 1200, the update is suppressed, and
the scheduler's remaining wait folded into `min_wait_seconds` is 200. -/
theorem c6_should_update_iff :
    (∀ (parse : String → Option Int) (state : StateMap) (webhook_id : String)
        (poll_interval : Nat) (now : Int),
      should_update parse state webhook_id poll_interval now =
        match seconds_since_last_update parse state webhook_id now with
        | none => true
        | some elapsed =>
          decide ((calculate_backoff (get_failure_count state webhook_id)
            poll_interval : Int) ≤ elapsed)) ∧
    calculate_backoff 2 300 = 1200 ∧
    should_update parseDemo [("w", Entry.dict (some "0") (some 2))] "w" 300 1000
      = false ∧
    (run_iteration parseDemo [⟨"w", some (Json.obj []), .response 200⟩]
        [("w", Entry.dict (some "0") (some 2))] 300 false 1000 "t").min_wait_seconds
      = 200 := by
  refine ⟨fun parse state webhook_id poll_interval now => rfl,
    by decide, by decide, by decide⟩

/-- C7 counterexample: the claim that at every moment during
`save_state` the file holds either the complete previous or the complete
new mapping fails: after `open(STATE_FILE, "w")` truncates the file and
before `json.dump` writes, the file is empty. -/
theorem c7_truncation_window :
    ¬ (∀ c ∈ save_state_trace "\x7b\"w\": \"t1\"\x7d" "\x7b\"w\": \"t2\"\x7d",
        c = "\x7b\"w\": \"t1\"\x7d" ∨ c = "\x7b\"w\": \"t2\"\x7d") := by
  decide

/-- C7 (amended): `save_state` overwrites the state file in place:
the write sequence ends with the complete new mapping, but it passes
through a truncated (empty) file state, so a crash mid-write can leave a
truncated document; there is no write-then-rename step. -/
theorem c7_save_overwrites_in_place (oldContent newContent : String) :
    (save_state_trace oldContent newContent).getLast? = some newContent ∧
    "" ∈ save_state_trace oldContent newContent := by
  refine ⟨rfl, by simp [save_state_trace]⟩

/-- C8: a due plugin whose `collect_data()` raises contributes nothing to
the iteration: the whole iteration over `p :: rest` equals the iteration
over `rest` alone, so the target's state entry is untouched,
`record_update` is not called for it, and every remaining target is
evaluated and executed exactly as it otherwise would be. -/
theorem c8_collector_exception_skips (parse : String → Option Int)
    (poll_interval : Nat) (trmnl_plus : Bool) (now : Int) (nowStr : String)
    (state0 : StateMap) (p : PluginRun) (rest : List PluginRun)
    (hraise : p.collect_data = none)
    (hdue : should_update parse state0 p.webhook_id poll_interval now = true) :
    run_iteration parse (p :: rest) state0 poll_interval trmnl_plus now nowStr
      = run_iteration parse rest state0 poll_interval trmnl_plus now nowStr := by
  simp [run_iteration, List.foldl_cons, iter_step, hdue, hraise]

/-- C8 witness: with a never-attempted state, a raising collector
followed by a healthy one produces the same iteration result as the
healthy one alone. -/
theorem c8_collector_exception_witness :
    run_iteration parseDemo
        [⟨"w1", none, .response 200⟩, ⟨"w2", some (Json.obj []), .response 200⟩]
        [] 300 false 0 "t"
      = run_iteration parseDemo [⟨"w2", some (Json.obj []), .response 200⟩]
          [] 300 false 0 "t" :=
  c8_collector_exception_skips parseDemo 300 false 0 "t" []
    ⟨"w1", none, .response 200⟩ [⟨"w2", some (Json.obj []), .response 200⟩]
    rfl (by decide)

/-- C9: `record_update` overwrites the target's entry with the fresh
timestamp and a failure count of 0 on success or the prior count plus one
on failure, where the prior count reads as 0 for an absent entry, a
legacy bare-string entry, or a structured entry missing the
`failure_count` field. -/
theorem c9_record_update_spec (state : StateMap) (webhook_id nowStr s t : String)
    (success : Bool) :
    dictGet (record_update state webhook_id success nowStr) webhook_id
      = some (Entry.dict (some nowStr)
          (some (if success then 0 else get_failure_count state webhook_id + 1))) ∧
    get_failure_count [] webhook_id = 0 ∧
    get_failure_count (dictInsert state webhook_id (Entry.str s)) webhook_id = 0 ∧
    get_failure_count (dictInsert state webhook_id (Entry.dict (some t) none))
      webhook_id = 0 := by
  refine ⟨?_, rfl, ?_, ?_⟩
  · simp [record_update, dictGet_dictInsert_self, get_failure_count]
  · simp [get_failure_count, dictGet_dictInsert_self]
  · simp [get_failure_count, dictGet_dictInsert_self]

/-- C10: a structured entry whose stored timestamp string fails parsing
is treated as never updated: `get_last_update_time` returns `none`,
`should_update` returns true (the target fires immediately), and the next
`record_update` replaces the corrupt entry with a well-formed one built
from the fresh timestamp. -/
theorem c10_corrupt_timestamp_fires (parse : String → Option Int)
    (state : StateMap) (webhook_id ts nowStr : String) (f : Option Nat)
    (poll_interval : Nat) (now : Int) (success : Bool)
    (hentry : dictGet state webhook_id = some (Entry.dict (some ts) f))
    (hparse : parse ts = none) :
    get_last_update_time parse state webhook_id = none ∧
    should_update parse state webhook_id poll_interval now = true ∧
    dictGet (record_update state webhook_id success nowStr) webhook_id
      = some (Entry.dict (some nowStr)
          (some (if success then 0 else f.getD 0 + 1))) := by
  have hlast : get_last_update_time parse state webhook_id = none := by
    by_cases hts : ts = ""
    · simp [get_last_update_time, hentry, entryTruthy, hts]
    · simp [get_last_update_time, hentry, entryTruthy, hts, hparse]
  refine ⟨hlast, ?_, ?_⟩
  · simp [should_update, seconds_since_last_update, hlast]
  · simp [record_update, dictGet_dictInsert_self, hentry]

/-- C10 witness: a corrupt timestamp `"garbage"` with 3 recorded failures
fires immediately and is repaired by the next `record_update`. -/
theorem c10_corrupt_timestamp_witness :
    get_last_update_time parseDemo [("w", Entry.dict (some "garbage") (some 3))] "w"
      = none ∧
    should_update parseDemo [("w", Entry.dict (some "garbage") (some 3))] "w" 300 0
      = true ∧
    dictGet (record_update [("w", Entry.dict (some "garbage") (some 3))] "w"
        false "t") "w"
      = some (Entry.dict (some "t") (some 4)) := by
  have h := c10_corrupt_timestamp_fires parseDemo
    [("w", Entry.dict (some "garbage") (some 3))] "w" "garbage" "t" (some 3)
    300 0 false (by decide) (by decide)
  exact ⟨h.1, h.2.1, h.2.2⟩
